import Mathlib

/-!
Shallow embedding of `src/shapeshiftio/shapeshiftio.py`, a thin HTTP client
for the ShapeShift exchange API, together with proofs of the specified
properties of its request construction, state handling and error semantics.

The network is modelled as a `World`: a function from issued requests to
transport results.  JSON decoding (`json.loads`) is modelled by an executable
recursive-descent parser `jsonLoads`; JSON numbers are kept as their source
lexemes (the claims under verification never compute with numeric values, and
IEEE floating point is not modelled).  Form encoding (`urllib.parse.urlencode`
with its default `quote_plus` quoting) is modelled byte-faithfully for the
ASCII range and per UTF-8 byte for the rest.
-/

/-- A decoded JSON value, as produced by `json.loads`.  Objects are kept as
association lists in parse order; numbers keep their lexeme. -/
inductive Json where
  | null : Json
  | bool (b : Bool) : Json
  | num (lexeme : String) : Json
  | str (s : String) : Json
  | arr (items : List Json) : Json
  | obj (fields : List (String × Json)) : Json
deriving Repr

/-- Does a JSON value have a top-level key `k` (objects only)? -/
def Json.hasKey : Json → String → Bool
  | .obj fields, k => fields.any (fun p => p.1 == k)
  | _, _ => false

/-- JSON whitespace skipping. -/
def skipWs : List Char → List Char
  | c :: rest =>
    if c == ' ' || c == '\t' || c == '\n' || c == '\r' then skipWs rest
    else c :: rest
  | [] => []

/-- Hex digit value of a character, if it is one. -/
def hexVal (c : Char) : Option Nat :=
  if '0' ≤ c ∧ c ≤ '9' then some (c.toNat - '0'.toNat)
  else if 'a' ≤ c ∧ c ≤ 'f' then some (c.toNat - 'a'.toNat + 10)
  else if 'A' ≤ c ∧ c ≤ 'F' then some (c.toNat - 'A'.toNat + 10)
  else none

/-- Parse the body of a JSON string literal (after the opening quote),
handling the escape sequences `json.loads` accepts. -/
def parseStringBody (fuel : Nat) (cs : List Char) (acc : List Char) :
    Option (String × List Char) :=
  match fuel, cs with
  | 0, _ => none
  | _, [] => none
  | fuel + 1, c :: rest =>
    if c == '"' then some (String.mk acc.reverse, rest)
    else if c == '\\' then
      match rest with
      | [] => none
      | e :: rest2 =>
        if e == '"' then parseStringBody fuel rest2 ('"' :: acc)
        else if e == '\\' then parseStringBody fuel rest2 ('\\' :: acc)
        else if e == '/' then parseStringBody fuel rest2 ('/' :: acc)
        else if e == 'n' then parseStringBody fuel rest2 ('\n' :: acc)
        else if e == 't' then parseStringBody fuel rest2 ('\t' :: acc)
        else if e == 'r' then parseStringBody fuel rest2 ('\r' :: acc)
        else if e == 'b' then parseStringBody fuel rest2 ('\x08' :: acc)
        else if e == 'f' then parseStringBody fuel rest2 ('\x0c' :: acc)
        else if e == 'u' then
          match rest2 with
          | h1 :: h2 :: h3 :: h4 :: rest3 =>
            match hexVal h1, hexVal h2, hexVal h3, hexVal h4 with
            | some a, some b, some c3, some d =>
              let n := ((a * 16 + b) * 16 + c3) * 16 + d
              if n.isValidChar then
                parseStringBody fuel rest3 (Char.ofNat n :: acc)
              else none
            | _, _, _, _ => none
          | _ => none
        else none
    else parseStringBody fuel rest (c :: acc)

/-- Longest prefix of decimal digits, returned with the remainder. -/
def takeDigits : List Char → List Char × List Char
  | [] => ([], [])
  | c :: rest =>
    if c.isDigit then
      let (ds, r) := takeDigits rest
      (c :: ds, r)
    else ([], c :: rest)

/-- Parse a JSON number starting at `cs`, returning its lexeme. -/
def parseNumber (cs : List Char) : Option (String × List Char) :=
  let (sign, cs1) :=
    match cs with
    | '-' :: rest => (['-'], rest)
    | _ => (([] : List Char), cs)
  let (intPart, cs2) := takeDigits cs1
  if intPart.isEmpty then none
  else
    let (fracPart, cs3) :=
      match cs2 with
      | '.' :: rest =>
        let (ds, r) := takeDigits rest
        if ds.isEmpty then (([] : List Char), cs2) else ('.' :: ds, r)
      | _ => ([], cs2)
    let (expPart, cs4) :=
      match cs3 with
      | e :: rest =>
        if e == 'e' || e == 'E' then
          let (esign, rest2) :=
            match rest with
            | '+' :: r => (['+'], r)
            | '-' :: r => (['-'], r)
            | _ => (([] : List Char), rest)
          let (ds, r) := takeDigits rest2
          if ds.isEmpty then (([] : List Char), cs3)
          else (e :: (esign ++ ds), r)
        else ([], cs3)
      | _ => ([], cs3)
    some (String.mk (sign ++ intPart ++ fracPart ++ expPart), cs4)

mutual

/-- Parse one JSON value. -/
def parseValue (fuel : Nat) (cs : List Char) : Option (Json × List Char) :=
  match fuel with
  | 0 => none
  | fuel + 1 =>
    match skipWs cs with
    | [] => none
    | c :: rest =>
      if c == '"' then
        match parseStringBody (rest.length + 1) rest [] with
        | some (s, r) => some (.str s, r)
        | none => none
      else if c == '[' then
        match skipWs rest with
        | ']' :: r => some (.arr [], r)
        | r => parseArrayItems fuel r []
      else if c == '{' then
        match skipWs rest with
        | '}' :: r => some (.obj [], r)
        | r => parseObjectItems fuel r []
      else
        match c :: rest with
        | 'n' :: 'u' :: 'l' :: 'l' :: r => some (.null, r)
        | 't' :: 'r' :: 'u' :: 'e' :: r => some (.bool true, r)
        | 'f' :: 'a' :: 'l' :: 's' :: 'e' :: r => some (.bool false, r)
        | cs2 =>
          match parseNumber cs2 with
          | some (lex, r) => some (.num lex, r)
          | none => none

/-- Parse the remaining items of a non-empty array (after `[`). -/
def parseArrayItems (fuel : Nat) (cs : List Char) (acc : List Json) :
    Option (Json × List Char) :=
  match fuel with
  | 0 => none
  | fuel + 1 =>
    match parseValue fuel cs with
    | none => none
    | some (v, r) =>
      match skipWs r with
      | ',' :: r2 => parseArrayItems fuel r2 (v :: acc)
      | ']' :: r2 => some (.arr (v :: acc).reverse, r2)
      | _ => none

/-- Parse the remaining members of a non-empty object (after `{`). -/
def parseObjectItems (fuel : Nat) (cs : List Char) (acc : List (String × Json)) :
    Option (Json × List Char) :=
  match fuel with
  | 0 => none
  | fuel + 1 =>
    match skipWs cs with
    | '"' :: rest =>
      match parseStringBody (rest.length + 1) rest [] with
      | none => none
      | some (k, r) =>
        match skipWs r with
        | ':' :: r2 =>
          match parseValue fuel r2 with
          | none => none
          | some (v, r3) =>
            match skipWs r3 with
            | ',' :: r4 => parseObjectItems fuel r4 ((k, v) :: acc)
            | '}' :: r4 => some (.obj ((k, v) :: acc).reverse, r4)
            | _ => none
        | _ => none
    | _ => none

end

/-- Model of `json.loads`: parse one JSON document and require the whole
input to be consumed (up to trailing whitespace). -/
def jsonLoads (s : String) : Option Json :=
  match parseValue (s.length + 1) s.data with
  | some (j, rest) => if (skipWs rest).isEmpty then some j else none
  | none => none

/-- UTF-8 encoding of a single character, as a list of byte values. -/
def utf8Bytes (c : Char) : List Nat :=
  let n := c.toNat
  if n < 0x80 then [n]
  else if n < 0x800 then [0xC0 + n / 64, 0x80 + n % 64]
  else if n < 0x10000 then
    [0xE0 + n / 4096, 0x80 + (n / 64) % 64, 0x80 + n % 64]
  else
    [0xF0 + n / 262144, 0x80 + (n / 4096) % 64, 0x80 + (n / 64) % 64,
     0x80 + n % 64]

/-- The bytes `urllib.parse.quote` never escapes: ASCII alphanumerics and
`_.-~`. -/
def isUrlSafeByte (n : Nat) : Bool :=
  decide ((48 ≤ n ∧ n ≤ 57) ∨ (65 ≤ n ∧ n ≤ 90) ∨ (97 ≤ n ∧ n ≤ 122) ∨
    n = 95 ∨ n = 46 ∨ n = 45 ∨ n = 126)

/-- Uppercase hexadecimal digit for a value below 16. -/
def hexDigitChar (n : Nat) : Char :=
  if n < 10 then Char.ofNat (48 + n) else Char.ofNat (55 + n)

/-- Quote one byte the way `urllib.parse.quote_plus` does: space becomes
`+`, safe bytes pass through, the rest become `%XX` with uppercase hex. -/
def quoteByte (n : Nat) : List Char :=
  if n = 32 then ['+']
  else if isUrlSafeByte n then [Char.ofNat n]
  else ['%', hexDigitChar (n / 16), hexDigitChar (n % 16)]

/-- Model of `urllib.parse.quote_plus`: quote every UTF-8 byte of the
string. -/
def quote_plus (s : String) : String :=
  String.mk (((s.data.map utf8Bytes).flatten).map quoteByte).flatten

/-- Model of `urllib.parse.urlencode` on a mapping (Python dicts preserve
insertion order, so the mapping is an association list). -/
def urlencode (postdata : List (String × String)) : String :=
  String.intercalate "&"
    (postdata.map fun kv => quote_plus kv.1 ++ "=" ++ quote_plus kv.2)

/-- An HTTP request issued by the client. -/
inductive Request where
  | get (url : String)
  | post (url : String) (body : String)
deriving Repr, DecidableEq

/-- The outcome of one `urlopen` call: `urlopen` raises (modelled as
`transportError`) on network/DNS/TLS errors and on non-2xx HTTP statuses,
and otherwise yields the response body. -/
inductive HttpResult where
  | transportError (msg : String)
  | ok (body : String)
deriving Repr, DecidableEq

/-- The network environment: what the service replies to each request. -/
structure World where
  respond : Request → HttpResult

/-- The failures the client itself can surface: the transport layer raised,
or the response body was not valid JSON (`json.loads` raised). -/
inductive ClientError where
  | transport (msg : String)
  | decode (body : String)
deriving Repr, DecidableEq

/-- Issue one request and decode the reply: one `urlopen` call followed by
`json.loads`.  Also returns the list of requests issued (always exactly
one — the client performs no retry). -/
def doRequest (w : World) (req : Request) :
    Except ClientError Json × List Request :=
  match w.respond req with
  | .transportError m => (.error (.transport m), [req])
  | .ok body =>
    match jsonLoads body with
    | none => (.error (.decode body), [req])
    | some j => (.ok j, [req])

/-- `get_request(self, url)`: `urlopen(url)` then `json.loads`. -/
def get_request (w : World) (url : String) :
    Except ClientError Json × List Request :=
  doRequest w (.get url)

/-- `post_request(self, url, postdata)`: `urlopen(url, urlencode(postdata)
.encode())` then `json.loads`. -/
def post_request (w : World) (url : String)
    (postdata : List (String × String)) :
    Except ClientError Json × List Request :=
  doRequest w (.post url (urlencode postdata))

/-- The client's instance attributes.  `__init__` sets `baseurl`; the `url`
attribute does not exist until the first operation assigns it, modelled by
`none`. -/
structure ShapeShift where
  baseurl : String
  url : Option String := none
deriving Repr, DecidableEq

/-- `ShapeShiftIO.__init__`: the base URL is fixed to the production
endpoint. -/
def ShapeShift.init : ShapeShift := { baseurl := "https://shapeshift.io" }

namespace ShapeShift

/-- `rate(self, pair)`. -/
def rate (self : ShapeShift) (w : World) (pair : String) :
    ShapeShift × Except ClientError Json × List Request :=
  let url := self.baseurl ++ "/rate/" ++ pair
  ({ self with url := some url }, get_request w url)

/-- `limit(self, pair)`. -/
def limit (self : ShapeShift) (w : World) (pair : String) :
    ShapeShift × Except ClientError Json × List Request :=
  let url := self.baseurl ++ "/limit/" ++ pair
  ({ self with url := some url }, get_request w url)

/-- `market_info(self, pair)`.  Note: in the source, `pair` is a required
positional parameter (it has no default), although the docstring calls it
optional. -/
def market_info (self : ShapeShift) (w : World) (pair : String) :
    ShapeShift × Except ClientError Json × List Request :=
  let url := self.baseurl ++ "/marketinfo/" ++ pair
  ({ self with url := some url }, get_request w url)

/-- `recent_tx(self, max_results=5)`; `str(max_results)` is embedded in the
path with no range check. -/
def recent_tx (self : ShapeShift) (w : World) (max_results : Int := 5) :
    ShapeShift × Except ClientError Json × List Request :=
  let url := self.baseurl ++ "/recenttx/" ++ toString max_results
  ({ self with url := some url }, get_request w url)

/-- `tx_status(self, address)`. -/
def tx_status (self : ShapeShift) (w : World) (address : String) :
    ShapeShift × Except ClientError Json × List Request :=
  let url := self.baseurl ++ "/txStat/" ++ address
  ({ self with url := some url }, get_request w url)

/-- `time_remaining(self, address)`. -/
def time_remaining (self : ShapeShift) (w : World) (address : String) :
    ShapeShift × Except ClientError Json × List Request :=
  let url := self.baseurl ++ "/timeremaining/" ++ address
  ({ self with url := some url }, get_request w url)

/-- `coin_list(self)`. -/
def coin_list (self : ShapeShift) (w : World) :
    ShapeShift × Except ClientError Json × List Request :=
  let url := self.baseurl ++ "/getcoins"
  ({ self with url := some url }, get_request w url)

/-- `tx_by_apikey(self, apiKey)`. -/
def tx_by_apikey (self : ShapeShift) (w : World) (apiKey : String) :
    ShapeShift × Except ClientError Json × List Request :=
  let url := self.baseurl ++ "/txbyapikey/" ++ apiKey
  ({ self with url := some url }, get_request w url)

/-- `tx_by_address(self, apiKey, address)`: note the path places `address`
before `apiKey`, the reverse of the argument order. -/
def tx_by_address (self : ShapeShift) (w : World) (apiKey : String)
    (address : String) :
    ShapeShift × Except ClientError Json × List Request :=
  let url := self.baseurl ++ "/txbyaddress/" ++ address ++ "/" ++ apiKey
  ({ self with url := some url }, get_request w url)

/-- `validate_address(self, address, coin)`. -/
def validate_address (self : ShapeShift) (w : World) (address : String)
    (coin : String) :
    ShapeShift × Except ClientError Json × List Request :=
  let url := self.baseurl ++ "/validateAddress/" ++ address ++ "/" ++ coin
  ({ self with url := some url }, get_request w url)

/-- `shift(self, postdata)`. -/
def shift (self : ShapeShift) (w : World)
    (postdata : List (String × String)) :
    ShapeShift × Except ClientError Json × List Request :=
  let url := self.baseurl ++ "/shift"
  ({ self with url := some url }, post_request w url postdata)

/-- `set_mail(self, postdata)`. -/
def set_mail (self : ShapeShift) (w : World)
    (postdata : List (String × String)) :
    ShapeShift × Except ClientError Json × List Request :=
  let url := self.baseurl ++ "/mail"
  ({ self with url := some url }, post_request w url postdata)

/-- `send_amount(self, postdata)`. -/
def send_amount (self : ShapeShift) (w : World)
    (postdata : List (String × String)) :
    ShapeShift × Except ClientError Json × List Request :=
  let url := self.baseurl ++ "/sendamount"
  ({ self with url := some url }, post_request w url postdata)

/-- `cancel_pending(self, postdata)`. -/
def cancel_pending (self : ShapeShift) (w : World)
    (postdata : List (String × String)) :
    ShapeShift × Except ClientError Json × List Request :=
  let url := self.baseurl ++ "/cancelpending"
  ({ self with url := some url }, post_request w url postdata)

end ShapeShift

/-- One call of some client operation with its arguments. -/
inductive Call where
  | rate (pair : String)
  | limit (pair : String)
  | marketInfo (pair : String)
  | recentTx (maxResults : Int)
  | txStatus (address : String)
  | timeRemaining (address : String)
  | coinList
  | txByApikey (apiKey : String)
  | txByAddress (apiKey : String) (address : String)
  | validateAddress (address : String) (coin : String)
  | shift (postdata : List (String × String))
  | setMail (postdata : List (String × String))
  | sendAmount (postdata : List (String × String))
  | cancelPending (postdata : List (String × String))
deriving Repr

/-- Dispatch one call on the client. -/
def runCall (self : ShapeShift) (w : World) :
    Call → ShapeShift × Except ClientError Json × List Request
  | .rate pair => self.rate w pair
  | .limit pair => self.limit w pair
  | .marketInfo pair => self.market_info w pair
  | .recentTx m => self.recent_tx w m
  | .txStatus a => self.tx_status w a
  | .timeRemaining a => self.time_remaining w a
  | .coinList => self.coin_list w
  | .txByApikey k => self.tx_by_apikey w k
  | .txByAddress k a => self.tx_by_address w k a
  | .validateAddress a c => self.validate_address w a c
  | .shift pd => self.shift w pd
  | .setMail pd => self.set_mail w pd
  | .sendAmount pd => self.send_amount w pd
  | .cancelPending pd => self.cancel_pending w pd

/-- The client state after a sequence of calls. -/
def runCalls (self : ShapeShift) (w : World) : List Call → ShapeShift
  | [] => self
  | c :: cs => runCalls (runCall self w c).1 w cs

/-- The URL an operation builds from the base URL, read off the source's
concatenations. -/
def Call.urlOf (baseurl : String) : Call → String
  | .rate pair => baseurl ++ "/rate/" ++ pair
  | .limit pair => baseurl ++ "/limit/" ++ pair
  | .marketInfo pair => baseurl ++ "/marketinfo/" ++ pair
  | .recentTx m => baseurl ++ "/recenttx/" ++ toString m
  | .txStatus a => baseurl ++ "/txStat/" ++ a
  | .timeRemaining a => baseurl ++ "/timeremaining/" ++ a
  | .coinList => baseurl ++ "/getcoins"
  | .txByApikey k => baseurl ++ "/txbyapikey/" ++ k
  | .txByAddress k a => baseurl ++ "/txbyaddress/" ++ a ++ "/" ++ k
  | .validateAddress a c => baseurl ++ "/validateAddress/" ++ a ++ "/" ++ c
  | .shift _ => baseurl ++ "/shift"
  | .setMail _ => baseurl ++ "/mail"
  | .sendAmount _ => baseurl ++ "/sendamount"
  | .cancelPending _ => baseurl ++ "/cancelpending"

/-- The request an operation issues. -/
def Call.reqOf (baseurl : String) : Call → Request
  | .shift pd => .post (Call.urlOf baseurl (.shift pd)) (urlencode pd)
  | .setMail pd => .post (Call.urlOf baseurl (.setMail pd)) (urlencode pd)
  | .sendAmount pd => .post (Call.urlOf baseurl (.sendAmount pd)) (urlencode pd)
  | .cancelPending pd =>
    .post (Call.urlOf baseurl (.cancelPending pd)) (urlencode pd)
  | c => .get (Call.urlOf baseurl c)

/-! ### Helper lemmas -/

theorem doRequest_reqs (w : World) (req : Request) :
    (doRequest w req).2 = [req] := by
  unfold doRequest
  split
  · rfl
  · split <;> rfl

theorem doRequest_transport (w : World) (req : Request) (m : String)
    (h : w.respond req = .transportError m) :
    (doRequest w req).1 = .error (.transport m) := by
  simp only [doRequest, h]

theorem doRequest_decodeFail (w : World) (req : Request) (body : String)
    (h : w.respond req = .ok body) (h2 : jsonLoads body = none) :
    (doRequest w req).1 = .error (.decode body) := by
  simp only [doRequest, h, h2]

theorem doRequest_ok (w : World) (req : Request) (body : String) (j : Json)
    (h : w.respond req = .ok body) (h2 : jsonLoads body = some j) :
    (doRequest w req).1 = .ok j := by
  simp only [doRequest, h, h2]

/-- Every operation sets `url` to the built URL and then performs exactly
one request, namely `Call.reqOf`. -/
theorem runCall_eq (s : ShapeShift) (w : World) (c : Call) :
    runCall s w c =
      ({ s with url := some (Call.urlOf s.baseurl c) },
       doRequest w (Call.reqOf s.baseurl c)) := by
  cases c <;> rfl

theorem runCall_baseurl (s : ShapeShift) (w : World) (c : Call) :
    (runCall s w c).1.baseurl = s.baseurl := by
  cases c <;> rfl

/-! ### Claims -/

/-- C1: every POST operation (`cancel_pending`, `shift`, `set_mail`,
`send_amount`) returns an HTTP-200 JSON body containing an `error` key to
the caller as the decoded structure, unchanged, with no client-side
exception raised. -/
theorem postOperations_error_body_returned_as_data (s : ShapeShift)
    (w : World) (pd : List (String × String)) (body : String) (j : Json)
    (hj : jsonLoads body = some j) (_hkey : j.hasKey "error" = true) :
    (w.respond (.post (s.baseurl ++ "/cancelpending") (urlencode pd)) =
        .ok body → (s.cancel_pending w pd).2.1 = .ok j) ∧
    (w.respond (.post (s.baseurl ++ "/shift") (urlencode pd)) = .ok body →
      (s.shift w pd).2.1 = .ok j) ∧
    (w.respond (.post (s.baseurl ++ "/mail") (urlencode pd)) = .ok body →
      (s.set_mail w pd).2.1 = .ok j) ∧
    (w.respond (.post (s.baseurl ++ "/sendamount") (urlencode pd)) =
        .ok body → (s.send_amount w pd).2.1 = .ok j) :=
  ⟨fun h => doRequest_ok w _ body j h hj,
   fun h => doRequest_ok w _ body j h hj,
   fun h => doRequest_ok w _ body j h hj,
   fun h => doRequest_ok w _ body j h hj⟩

/-- Witness for C1: `cancel_pending` with an upstream reply of
`\x7b"error":"already sent"\x7d` returns that structure as data. -/
theorem postOperations_error_body_returned_as_data_witness :
    jsonLoads "\x7b\"error\":\"already sent\"\x7d" =
      some (.obj [("error", .str "already sent")]) ∧
    (ShapeShift.init.cancel_pending
        ⟨fun _ => .ok "\x7b\"error\":\"already sent\"\x7d"⟩
        [("address", "1HB5XMLmzFVj8ALj6mfBsbifRoD4miY36v")]).2.1 =
      .ok (.obj [("error", .str "already sent")]) :=
  ⟨rfl,
   (postOperations_error_body_returned_as_data ShapeShift.init
      ⟨fun _ => .ok "\x7b\"error\":\"already sent\"\x7d"⟩
      [("address", "1HB5XMLmzFVj8ALj6mfBsbifRoD4miY36v")]
      "\x7b\"error\":\"already sent\"\x7d"
      (.obj [("error", .str "already sent")]) rfl rfl).1 rfl⟩

/-- C2 counterexample: the claim that the client's state after a call
equals its state at construction is false — `rate` overwrites the `url`
attribute, so the state after one call differs from the constructed
state. -/
theorem client_state_changes_after_call :
    (ShapeShift.init.rate
        ⟨fun _ => .ok "\x7b\"pair\":\"btc_ltc\",\"rate\":\"70.1234\"\x7d"⟩
        "btc_ltc").1 ≠ ShapeShift.init := by
  decide

/-- C2 amended: after a call the client state equals the construction-time
state except for the `url` attribute, which every operation overwrites with
that call's request URL; the base URL is never altered. -/
theorem client_mutates_only_url_attribute (s : ShapeShift) (w : World)
    (c : Call) :
    (runCall s w c).1 = { s with url := some (Call.urlOf s.baseurl c) } := by
  cases c <;> rfl

/-- C3: `shift` POSTs to `/shift` with body exactly `urlencode` of the
caller-supplied mapping (concretely `withdrawal=W&pair=btc_ltc&
returnAddress=R` for the example mapping), the JSON response is decoded
and returned verbatim, and every other POST operation likewise form-encodes
exactly the caller-supplied mapping into the request body. -/
theorem shift_form_encodes_postdata (s : ShapeShift) (w : World)
    (pd : List (String × String)) :
    (s.shift w pd).2.2 = [.post (s.baseurl ++ "/shift") (urlencode pd)] ∧
    urlencode [("withdrawal", "W"), ("pair", "btc_ltc"),
        ("returnAddress", "R")] =
      "withdrawal=W&pair=btc_ltc&returnAddress=R" ∧
    (∀ body j,
      w.respond (.post (s.baseurl ++ "/shift") (urlencode pd)) = .ok body →
      jsonLoads body = some j → (s.shift w pd).2.1 = .ok j) ∧
    (s.set_mail w pd).2.2 = [.post (s.baseurl ++ "/mail") (urlencode pd)] ∧
    (s.send_amount w pd).2.2 =
      [.post (s.baseurl ++ "/sendamount") (urlencode pd)] ∧
    (s.cancel_pending w pd).2.2 =
      [.post (s.baseurl ++ "/cancelpending") (urlencode pd)] :=
  ⟨doRequest_reqs w _, rfl,
   fun body j h h2 => doRequest_ok w _ body j h h2,
   doRequest_reqs w _, doRequest_reqs w _, doRequest_reqs w _⟩

/-- Witness for C3: the example shift round-trips the documented success
body to its decoded structure. -/
theorem shift_form_encodes_postdata_witness :
    (ShapeShift.init.shift
        ⟨fun _ => .ok "\x7b\"deposit\":\"D\",\"depositType\":\"BTC\",\"withdrawal\":\"W\",\"withdrawalType\":\"LTC\"\x7d"⟩
        [("withdrawal", "W"), ("pair", "btc_ltc"),
         ("returnAddress", "R")]).2.1 =
      .ok (.obj [("deposit", .str "D"), ("depositType", .str "BTC"),
        ("withdrawal", .str "W"), ("withdrawalType", .str "LTC")]) :=
  (shift_form_encodes_postdata ShapeShift.init
      ⟨fun _ => .ok "\x7b\"deposit\":\"D\",\"depositType\":\"BTC\",\"withdrawal\":\"W\",\"withdrawalType\":\"LTC\"\x7d"⟩
      [("withdrawal", "W"), ("pair", "btc_ltc"),
       ("returnAddress", "R")]).2.2.1
    "\x7b\"deposit\":\"D\",\"depositType\":\"BTC\",\"withdrawal\":\"W\",\"withdrawalType\":\"LTC\"\x7d"
    (.obj [("deposit", .str "D"), ("depositType", .str "BTC"),
      ("withdrawal", .str "W"), ("withdrawalType", .str "LTC")]) rfl rfl

/-- C4: for every pair string `p`, including the empty string,
`market_info` issues a GET to the base URL followed by `/marketinfo/`
followed by `p`.  (The further part of the claim — that the empty-pair
path is also available when the pair argument is omitted — does not hold
of the source: `market_info(self, pair)` gives `pair` no default value,
although its docstring calls the parameter optional.) -/
theorem market_info_url_construction (s : ShapeShift) (w : World)
    (p : String) :
    (s.market_info w p).2.2 = [.get (s.baseurl ++ "/marketinfo/" ++ p)] ∧
    (ShapeShift.init.market_info w "").2.2 =
      [.get "https://shapeshift.io/marketinfo/"] ∧
    (ShapeShift.init.market_info w "btc_ltc").2.2 =
      [.get "https://shapeshift.io/marketinfo/btc_ltc"] :=
  ⟨doRequest_reqs w _, doRequest_reqs w _, doRequest_reqs w _⟩

/-- C5: `recent_tx` defaults to 5, embeds the literal `str(max_results)`
into the path and performs no range check — values outside `[1, 50]` pass
through unchanged. -/
theorem recent_tx_literal_max_in_url (s : ShapeShift) (w : World)
    (m : Int) :
    (s.recent_tx w m).2.2 =
      [.get (s.baseurl ++ "/recenttx/" ++ toString m)] ∧
    (ShapeShift.init.recent_tx w).2.2 =
      [.get "https://shapeshift.io/recenttx/5"] ∧
    (ShapeShift.init.recent_tx w 50).2.2 =
      [.get "https://shapeshift.io/recenttx/50"] ∧
    (ShapeShift.init.recent_tx w 0).2.2 =
      [.get "https://shapeshift.io/recenttx/0"] ∧
    (ShapeShift.init.recent_tx w 51).2.2 =
      [.get "https://shapeshift.io/recenttx/51"] ∧
    (ShapeShift.init.recent_tx w (-7)).2.2 =
      [.get "https://shapeshift.io/recenttx/-7"] :=
  ⟨doRequest_reqs w _, doRequest_reqs w _, doRequest_reqs w _,
   doRequest_reqs w _, doRequest_reqs w _, doRequest_reqs w _⟩

/-- C6: for every pair string `p`, `rate` GETs exactly the base URL
followed by `/rate/` followed by `p` and `limit` GETs exactly the base URL
followed by `/limit/` followed by `p`, each returning the JSON-decoded
response body verbatim. -/
theorem rate_limit_get_urls (s : ShapeShift) (w : World) (p : String) :
    (s.rate w p).2.2 = [.get (s.baseurl ++ "/rate/" ++ p)] ∧
    (s.limit w p).2.2 = [.get (s.baseurl ++ "/limit/" ++ p)] ∧
    (∀ body j, w.respond (.get (s.baseurl ++ "/rate/" ++ p)) = .ok body →
      jsonLoads body = some j → (s.rate w p).2.1 = .ok j) ∧
    (∀ body j, w.respond (.get (s.baseurl ++ "/limit/" ++ p)) = .ok body →
      jsonLoads body = some j → (s.limit w p).2.1 = .ok j) :=
  ⟨doRequest_reqs w _, doRequest_reqs w _,
   fun body j h h2 => doRequest_ok w _ body j h h2,
   fun body j h h2 => doRequest_ok w _ body j h h2⟩

/-- Witness for C6: `rate` on `btc_ltc` returns the decoded documented
body. -/
theorem rate_limit_get_urls_witness :
    (ShapeShift.init.rate
        ⟨fun _ => .ok "\x7b\"pair\":\"btc_ltc\",\"rate\":\"70.1234\"\x7d"⟩
        "btc_ltc").2.1 =
      .ok (.obj [("pair", .str "btc_ltc"), ("rate", .str "70.1234")]) :=
  (rate_limit_get_urls ShapeShift.init
      ⟨fun _ => .ok "\x7b\"pair\":\"btc_ltc\",\"rate\":\"70.1234\"\x7d"⟩
      "btc_ltc").2.2.1
    "\x7b\"pair\":\"btc_ltc\",\"rate\":\"70.1234\"\x7d"
    (.obj [("pair", .str "btc_ltc"), ("rate", .str "70.1234")]) rfl rfl

/-- C7: every operation issues exactly one HTTP request (no retry); a raised
transport error is surfaced as a transport failure, a body that is not
valid JSON as a decode failure distinct from it, and any other outcome
succeeds — so those are the only failure modes the client produces. -/
theorem single_request_and_failure_modes (s : ShapeShift) (w : World)
    (c : Call) :
    (runCall s w c).2.2 = [Call.reqOf s.baseurl c] ∧
    (∀ m, w.respond (Call.reqOf s.baseurl c) = .transportError m →
      (runCall s w c).2.1 = .error (.transport m)) ∧
    (∀ body, w.respond (Call.reqOf s.baseurl c) = .ok body →
      jsonLoads body = none →
      (runCall s w c).2.1 = .error (.decode body)) ∧
    (∀ body j, w.respond (Call.reqOf s.baseurl c) = .ok body →
      jsonLoads body = some j → (runCall s w c).2.1 = .ok j) := by
  rw [runCall_eq]
  exact ⟨doRequest_reqs w _,
    fun m h => doRequest_transport w _ m h,
    fun body h h2 => doRequest_decodeFail w _ body h h2,
    fun body j h h2 => doRequest_ok w _ body j h h2⟩

/-- Witness for C7: a transport error on `rate` surfaces as a transport
failure, and a non-JSON body surfaces as a decode failure. -/
theorem single_request_and_failure_modes_witness :
    (runCall ShapeShift.init
        ⟨fun _ => .transportError "HTTP Error 500: Internal Server Error"⟩
        (.rate "btc_ltc")).2.1 =
      .error (.transport "HTTP Error 500: Internal Server Error") ∧
    (runCall ShapeShift.init ⟨fun _ => .ok "not json"⟩
        (.rate "btc_ltc")).2.1 = .error (.decode "not json") :=
  ⟨(single_request_and_failure_modes ShapeShift.init
      ⟨fun _ => .transportError "HTTP Error 500: Internal Server Error"⟩
      (.rate "btc_ltc")).2.1 "HTTP Error 500: Internal Server Error" rfl,
   (single_request_and_failure_modes ShapeShift.init
      ⟨fun _ => .ok "not json"⟩ (.rate "btc_ltc")).2.2.1 "not json" rfl rfl⟩

/-- C8: `tx_by_address(apiKey, address)` GETs
`/txbyaddress/{address}/{apiKey}` — the address path segment first, the
API-key segment second, the reverse of the argument order. -/
theorem tx_by_address_path_order (s : ShapeShift) (w : World)
    (apiKey address : String) :
    (s.tx_by_address w apiKey address).2.2 =
      [.get (s.baseurl ++ "/txbyaddress/" ++ address ++ "/" ++ apiKey)] :=
  doRequest_reqs w _

/-- C9: the constructor fixes the base URL to the production endpoint, and
no operation (nor any sequence of operations) alters the `baseurl`
attribute. -/
theorem baseurl_fixed_across_calls :
    ShapeShift.init.baseurl = "https://shapeshift.io" ∧
    (∀ (s : ShapeShift) (w : World) (c : Call),
      (runCall s w c).1.baseurl = s.baseurl) ∧
    (∀ (s : ShapeShift) (w : World) (cs : List Call),
      (runCalls s w cs).baseurl = s.baseurl) := by
  refine ⟨rfl, runCall_baseurl, ?_⟩
  intro s w cs
  induction cs generalizing s with
  | nil => rfl
  | cons c cs ih =>
    show (runCalls (runCall s w c).1 w cs).baseurl = s.baseurl
    rw [ih, runCall_baseurl]

/-- C10: every operation assigns the built request URL to the `url`
attribute before issuing the request, so after a failed call the `url`
attribute holds the URL of the attempted request — the state is not left
unchanged on error. -/
theorem url_attribute_set_despite_failure (s : ShapeShift) (w : World)
    (c : Call) (e : ClientError)
    (_h : (runCall s w c).2.1 = .error e) :
    (runCall s w c).1.url = some (Call.urlOf s.baseurl c) := by
  rw [runCall_eq]

/-- Witness for C10: after a transport-failed `rate` call, the `url`
attribute holds the attempted request URL. -/
theorem url_attribute_set_despite_failure_witness :
    (runCall ShapeShift.init
        ⟨fun _ => .transportError "urlopen error"⟩ (.rate "btc_ltc")).1.url =
      some "https://shapeshift.io/rate/btc_ltc" :=
  url_attribute_set_despite_failure ShapeShift.init
    ⟨fun _ => .transportError "urlopen error"⟩ (.rate "btc_ltc")
    (.transport "urlopen error") rfl
